import Mathlib

/-!
Shallow embedding of the custom-field-patcher repository (src/patcher.py and
src/utils.py) and proofs about its specification claims.

Modelling conventions:
- Python dicts are modelled as association lists with Python insertion-order
  semantics (`dictInsert` updates the first occurrence of a key in place,
  otherwise appends; `dictLookup` finds the first occurrence).
- HTTP calls are modelled by passing the outcome of the call (transport
  exception, or a response with status and parsed body) as an explicit input;
  `response.ok` in the `requests` library means status < 400.
- `sys.exit(1)` (via `fatal_error` in utils.py) is modelled by `Except.error`
  carrying the logged message; note that in Python `sys.exit` raises
  `SystemExit`, which is not caught by `except Exception`, so a fatal error
  inside a `try` block still terminates the process.
- The script patcher.py is modelled from its config-validated state onward as
  `patcherMain`, which returns the trace of observable events (log lines,
  HTTP requests, sleeps) and the process exit code.
-/

namespace CustomFieldPatcher

/-- Python-dict insert on an association list: update the first occurrence of
the key in place (Python dicts keep the original insertion position on
overwrite), otherwise append at the end. -/
def dictInsert {α : Type} : List (String × α) → String → α → List (String × α)
  | [], k, v => [(k, v)]
  | (k₀, v₀) :: rest, k, v =>
    if k₀ = k then (k, v) :: rest else (k₀, v₀) :: dictInsert rest k v

/-- Python-dict lookup on an association list: first occurrence of the key. -/
def dictLookup {α : Type} : List (String × α) → String → Option α
  | [], _ => none
  | (k₀, v₀) :: rest, k => if k₀ = k then some v₀ else dictLookup rest k

/-- Character-level model of Python `str.startswith` (and of Lean
`String.startsWith`, stated over the character list so that it evaluates). -/
def strStarts (s p : String) : Bool :=
  s.toList.take p.toList.length == p.toList

/-- Character-level model of Python `str.endswith`. -/
def strEnds (s p : String) : Bool :=
  s.toList.reverse.take p.toList.length == p.toList.reverse

/-- Boolean test for a non-error `Except` value. -/
def exceptOk {ε α : Type} : Except ε α → Bool
  | .ok _ => true
  | .error _ => false

/-! ## HTTP-level data model -/

/-- One entry of the custom-field catalog returned by
GET .../custom_fields: in the JSON it is an object with an `id` field and an
`attributes.name` field; only those two parts are read by the code. -/
structure CatalogItem where
  id : String
  name : String
deriving DecidableEq, Repr

/-- Parsed body of the catalog GET response: either `response.json()["data"]`
raises (malformed body or missing key, carrying the exception text), or it
yields a list of catalog items. -/
inductive CatalogData where
  | malformed (m : String)
  | parsed (items : List CatalogItem)
deriving DecidableEq, Repr

/-- Outcome of the catalog GET request: a transport exception, or a response
with an HTTP status code and a body. -/
inductive CatalogOutcome where
  | exc (m : String)
  | resp (status : Nat) (body : CatalogData)
deriving DecidableEq, Repr

/-- Parsed body of the auth-exchange POST response: either `response.json()`
raises, or it is a JSON object whose optional `access_token` field is read
with `.get`. -/
inductive AuthBody where
  | malformed (m : String)
  | parsed (access_token : Option String)
deriving DecidableEq, Repr

/-- Outcome of the auth-exchange POST request. -/
inductive AuthOutcome where
  | exc (m : String)
  | resp (status : Nat) (body : AuthBody)
deriving DecidableEq, Repr

/-- Outcome of one PATCH request: transport exception, or a response with a
status code and body text. -/
inductive PatchOutcome where
  | exc (m : String)
  | resp (status : Nat) (text : String)
deriving DecidableEq, Repr

/-- The `attributes` object of the PATCH payload. -/
structure PayloadAttributes where
  custom_field_id : String
  value : String
deriving DecidableEq, Repr

/-- The `data` object of the PATCH payload. -/
structure PayloadData where
  type : String
  attributes : PayloadAttributes
deriving DecidableEq, Repr

/-- The PATCH request payload
`{data: {type: ..., attributes: {custom_field_id: ..., value: ...}}}`. -/
structure Payload where
  data : PayloadData
deriving DecidableEq, Repr

/-- The auth-exchange request: URL and JSON body `{api_token, tenant}`. -/
structure AuthRequest where
  url : String
  api_token : String
  tenant : String
deriving DecidableEq, Repr

/-- Observable events of a patcher.py run: log lines at the three levels used
by the script, outgoing HTTP requests, and the fixed inter-request pause. -/
inductive Event where
  | logInfo (msg : String)
  | logWarning (msg : String)
  | logError (msg : String)
  | httpGet (url : String)
  | httpPatch (url : String) (payload : Payload)
  | sleep
deriving DecidableEq, Repr

/-- Boolean test for a PATCH request event. -/
def Event.isHttpPatchB : Event → Bool
  | .httpPatch _ _ => true
  | _ => false

/-- Boolean test for an info-level log event. -/
def Event.isLogInfoB : Event → Bool
  | .logInfo _ => true
  | _ => false

/-! ## utils.py -/

/-- Embedding of `get_bearer_token` (src/utils.py lines 43-75). The outcome of
the single POST is an explicit input; the result is the request that is sent
together with either the bearer token or the fatal-error message
(`fatal_error` logs and calls `sys.exit(1)`, and the `SystemExit` it raises is
not caught by the `except Exception` handler). -/
def get_bearer_token (base_url api_token tenant : String) (outcome : AuthOutcome) :
    AuthRequest × Except String String :=
  let req : AuthRequest := ⟨base_url ++ "/auth/exchange", api_token, tenant⟩
  let result : Except String String :=
    match outcome with
    | .exc m => .error ("Error exchanging API token for Bearer token: " ++ m)
    | .resp status body =>
      if status < 400 then
        match body with
        | .malformed m =>
          .error ("Error exchanging API token for Bearer token: " ++ m)
        | .parsed tok =>
          match tok with
          | none => .error "Bearer token missing from API response."
          | some t =>
            if t = "" then .error "Bearer token missing from API response."
            else .ok t
      else
        .error ("Failed to exchange API token for Bearer token (" ++
          Nat.repr status ++ ")")
  (req, result)

/-- The dict comprehension in `get_custom_field_ids` (src/utils.py lines
114-116): a name-to-id dict over the whole catalog. A later item with the same
name overwrites an earlier one, as in a Python dict comprehension. -/
def availableFields (items : List CatalogItem) : List (String × String) :=
  items.foldl (fun acc it => dictInsert acc it.name it.id) []

/-- The map-building loop of `get_custom_field_ids` (src/utils.py lines
113-127), separated from the HTTP part for comparison with patcher.py:
for each requested name, insert the catalog id found in `availableFields`,
skipping (with a warning in the source) any name not in the catalog. -/
def utilsFieldIdMap (items : List CatalogItem) (custom_field_names : List String) :
    List (String × String) :=
  let available := availableFields items
  custom_field_names.foldl
    (fun acc f =>
      match dictLookup available f with
      | some i => dictInsert acc f i
      | none => acc)
    []

/-- Embedding of `get_custom_field_ids` (src/utils.py lines 78-135). The
outcome of the single GET to `{base_url}/api/v2/{tenant}/custom_fields` is an
explicit input. On a non-success status, on a transport exception, and on a
body whose `json()["data"]` raises, the function is fatal (`Except.error`);
otherwise it returns the name-to-id map. -/
def get_custom_field_ids (base_url tenant : String)
    (headers : List (String × String)) (custom_field_names : List String)
    (outcome : CatalogOutcome) : Except String (List (String × String)) :=
  match outcome with
  | .exc m => .error ("Error fetching custom field IDs: " ++ m)
  | .resp status body =>
    if status < 400 then
      match body with
      | .malformed m => .error ("Error fetching custom field IDs: " ++ m)
      | .parsed items => .ok (utilsFieldIdMap items custom_field_names)
    else
      .error ("Failed to fetch custom fields for tenant " ++ tenant ++
        " (" ++ Nat.repr status ++ ")")

/-! ## CSV loading -/

/-- Raw CSV content as read by `pd.read_csv`: a header row and data rows whose
cells are `none` for a missing/blank value (pandas NaN) and `some s` for a
present value. -/
structure Csv where
  header : List String
  rows : List (List (Option String))
deriving DecidableEq, Repr

/-- The prepared table: header after the `id` rename, rows after blank-fill,
truncation and string coercion. -/
structure Table where
  header : List String
  rows : List (List String)
deriving DecidableEq, Repr

/-- The `rename(columns={"id": "use_case_id"})` step. -/
def renameColumns (header : List String) : List String :=
  header.map fun c => if c = "id" then "use_case_id" else c

/-- The required-columns check of `read_and_prepare_csv`:
`required_columns = {"use_case_id", *custom_field_names}` minus the header.
Python computes this with sets, whose iteration order is unspecified; the
model lists the missing columns in first-occurrence order of
`"use_case_id" :: custom_field_names`. -/
def missingColumns (header : List String) (custom_field_names : List String) :
    List String :=
  (("use_case_id" :: custom_field_names).dedup).filter
    fun c => !(header.contains c)

/-- Embedding of `read_and_prepare_csv` (src/utils.py lines 138-180); the
inline CSV block of patcher.py (lines 156-178) performs the same steps with
the same messages. Order of operations follows the source: blank-fill and
rename, required-column check (a `ValueError` caught by the outer handler and
re-reported with the file path), truncation when `num_ids` is truthy (Python
`if num_ids:` treats 0 as falsy), and `astype(str)` on the field columns,
which is the identity on the already-string cells of the model. -/
def read_and_prepare_csv (csv_path : String) (csv : Csv)
    (custom_field_names : List String) (num_ids : Option Nat) :
    Except String Table :=
  let header := renameColumns csv.header
  let filled := csv.rows.map fun r => r.map fun cell => cell.getD ""
  let missing := missingColumns header custom_field_names
  if missing.isEmpty then
    let limited :=
      match num_ids with
      | some n => if n = 0 then filled else filled.take n
      | none => filled
    .ok ⟨header, limited⟩
  else
    .error ("Error processing CSV file " ++ csv_path ++
      ": Missing required column(s): " ++ String.intercalate ", " missing)

/-! ## Configuration -/

/-- Atomic YAML values appearing inside the `custom_field_names` list. -/
inductive CVAtom where
  | astr (s : String)
  | aint (n : Int)
  | abool (b : Bool)
deriving DecidableEq, Repr

/-- YAML configuration values as far as the code inspects them: null/absent,
string, integer, boolean, or a flat list of atoms. -/
inductive ConfigValue where
  | vnull
  | vstr (s : String)
  | vint (n : Int)
  | vbool (b : Bool)
  | vlist (xs : List CVAtom)
deriving DecidableEq, Repr

/-- Python truthiness of a configuration value (`not value`): None, the empty
string, 0, False and the empty list are falsy. -/
def truthy : ConfigValue → Bool
  | .vnull => false
  | .vstr s => s ≠ ""
  | .vint n => n ≠ 0
  | .vbool b => b
  | .vlist xs => !xs.isEmpty

/-- Python `config.get(key)`: the stored value, or None when absent. -/
def configGet (config : List (String × ConfigValue)) (k : String) : ConfigValue :=
  (dictLookup config k).getD .vnull

/-- The `REQUIRED_KEYS` list of `validate_and_expand_config`
(src/utils.py lines 203-209). -/
def REQUIRED_KEYS : List String :=
  ["csv_path", "base_url", "api_token", "tenant", "custom_field_names"]

/-- The `isinstance` check: every element of the list is a string. -/
def isStringList (xs : List CVAtom) : Bool :=
  xs.all fun a => match a with | .astr _ => true | _ => false

/-- Extraction of the strings of a list of atoms (total; used only under
`isStringList`). -/
def asStringList (xs : List CVAtom) : List String :=
  xs.filterMap fun a => match a with | .astr s => some s | _ => none

/-- The `num_ids` validation of `validate_and_expand_config` (src/utils.py
lines 237-238): absent is fine, otherwise it must be an integer that is at
least 1. -/
def numIdsCheck : ConfigValue → Except String (Option Int)
  | .vnull => .ok none
  | .vint n =>
    if n < 1 then .error "num_ids must be a positive integer if provided."
    else .ok (some n)
  | _ => .error "num_ids must be a positive integer if provided."

/-- Embedding of `validate_and_expand_config` (src/utils.py lines 183-240).
The process environment is the explicit input `env` (Python `os.getenv`
returns None for an unset variable). Steps in source order: required-keys
check, extraction, environment expansion of an `api_token` of the literal
form between a dollar-brace and a closing brace, `custom_field_names` type
check, `num_ids` check, and the result tuple. The function performs no file
or network I/O in the source, hence it is a pure function here. -/
def validate_and_expand_config (config : List (String × ConfigValue))
    (env : String → Option String) :
    Except String
      (ConfigValue × ConfigValue × ConfigValue × ConfigValue ×
        List String × Option Int) :=
  let missing_keys := REQUIRED_KEYS.filter fun k => !truthy (configGet config k)
  if missing_keys.isEmpty then
    let csv_path := configGet config "csv_path"
    let base_url := configGet config "base_url"
    let api_token := configGet config "api_token"
    let tenant := configGet config "tenant"
    let custom_field_names := configGet config "custom_field_names"
    let num_ids := configGet config "num_ids"
    let expanded : Except String ConfigValue :=
      match api_token with
      | .vstr s =>
        if strStarts s "$\x7b" && strEnds s "\x7d" then
          let env_var := (s.drop 2).dropRight 1
          match env env_var with
          | none => .error ("Environment variable " ++ env_var ++ " not set.")
          | some v =>
            if v = "" then
              .error ("Environment variable " ++ env_var ++ " not set.")
            else .ok (.vstr v)
        else .ok api_token
      | _ => .ok api_token
    match expanded with
    | .error e => .error e
    | .ok api_token2 =>
      match custom_field_names with
      | .vlist xs =>
        if isStringList xs then
          match numIdsCheck num_ids with
          | .error e => .error e
          | .ok m =>
            .ok (csv_path, base_url, api_token2, tenant, asStringList xs, m)
        else
          .error
            "The custom_field_names key must be a list of strings in the config file."
      | _ =>
        .error
          "The custom_field_names key must be a list of strings in the config file."
  else
    .error ("Missing required configuration key(s): " ++
      String.intercalate ", " missing_keys)

/-! ## patcher.py -/

/-- The inline name-to-id resolution loop of patcher.py (lines 130-140): for
each requested name, scan the catalog in order and keep the id of the first
item whose name matches (the loop breaks at the first match); a name with no
match is skipped with a warning. -/
def patcherFieldIdMap (items : List CatalogItem) (custom_field_names : List String) :
    List (String × String) :=
  custom_field_names.foldl
    (fun acc f =>
      match items.find? (fun it => it.name == f) with
      | some it => dictInsert acc f it.id
      | none => acc)
    []

/-- Embedding of the catalog-fetch block of patcher.py (lines 113-153). The
GET to `{API_URL}/{TENANT}/custom_fields` is always issued. On a non-success
status the block logs a warning and falls through; on a transport or parsing
exception the inner `except` logs an error and falls through; in both cases
`custom_field_ids` stays empty and the run continues. The outer
`except ... sys.exit(1)` is unreachable for these outcomes because the inner
handler already catches every exception of the request and of the parsing, so
the block never terminates the process and is modelled without an error
channel. -/
def patcherFetchBlock (api_url tenant : String) (custom_field_names : List String)
    (outcome : CatalogOutcome) : List Event × List (String × String) :=
  let getEv := Event.httpGet (api_url ++ "/" ++ tenant ++ "/custom_fields")
  match outcome with
  | .exc m => ([getEv, .logError ("Error getting custom field IDs: " ++ m)], [])
  | .resp status body =>
    if status < 400 then
      match body with
      | .malformed m =>
        ([getEv, .logError ("Error getting custom field IDs: " ++ m)], [])
      | .parsed items =>
        let perField := custom_field_names.map fun f =>
          match items.find? (fun it => it.name == f) with
          | some it =>
            Event.logInfo ("Found custom field ID for " ++ f ++ ": " ++ it.id)
          | none =>
            Event.logWarning ("Custom field " ++ f ++ " not found for tenant " ++
              tenant ++ ". This field will be skipped.")
        ([getEv,
          .logInfo ("Successfully fetched custom fields for tenant " ++
            tenant ++ ".")] ++ perField,
          patcherFieldIdMap items custom_field_names)
    else
      ([getEv,
        .logWarning ("Failed to fetch custom fields for tenant " ++ tenant ++
          " (" ++ Nat.repr status ++ ")")], [])

/-- A row of the prepared table, keyed by column name. -/
abbrev Row := List (String × String)

/-- Row access `row[column]` (columns are validated before the loop, so a
missing key is defaulted rather than raising). -/
def rowGet (row : Row) (k : String) : String :=
  (dictLookup row k).getD ""

/-- The PATCH target URL built at patcher.py line 194:
`{API_URL}/{TENANT}/use_cases/{use_case_id}/custom_fields` (note: the
configured `api_url` is used as-is, no `/api/v2` segment is inserted). -/
def patchUrl (api_url tenant use_case_id : String) : String :=
  api_url ++ "/" ++ tenant ++ "/use_cases/" ++ use_case_id ++ "/custom_fields"

/-- The PATCH payload built at patcher.py lines 196-201. -/
def mkPayload (custom_field_id value : String) : Payload :=
  ⟨⟨"use_case_custom_fields", ⟨custom_field_id, value⟩⟩⟩

/-- Log message of the skip branch (patcher.py line 189). -/
def skipFieldMsg (field use_case_id : String) : String :=
  "Skipping field " ++ field ++ " for use case " ++ use_case_id ++
    " - field not found in API response"

/-- Log message announcing the intended request (patcher.py lines 203-207);
`row_idx + 2` converts the 0-based dataframe index to the 1-based CSV line
number behind the header. -/
def intendedMsg (rowIdx : Nat) (url : String) : String :=
  "[Row " ++ Nat.repr (rowIdx + 2) ++ " in CSV] Will PATCH to: " ++ url

/-- Log message of a successful PATCH (patcher.py line 214). -/
def patchSuccessMsg (rowIdx : Nat) (use_case_id field : String) : String :=
  "[Row " ++ Nat.repr (rowIdx + 2) ++ "] PATCH success | use_case_id=" ++
    use_case_id ++ ", field=" ++ field

/-- Log message of a failed PATCH (patcher.py line 218). -/
def patchFailMsg (rowIdx status : Nat) (text : String) : String :=
  "[Row " ++ Nat.repr (rowIdx + 2) ++ "] PATCH failed (" ++ Nat.repr status ++
    ") | " ++ text

/-- Log message of a PATCH transport error (patcher.py line 222). -/
def patchErrMsg (rowIdx : Nat) (use_case_id field m : String) : String :=
  "[Row " ++ Nat.repr (rowIdx + 2) ++ "] PATCH error for use_case_id=" ++
    use_case_id ++ ", field=" ++ field ++ ": " ++ m

/-- One iteration of the inner field loop of patcher.py (lines 186-225) for a
single (row, field) pair. `oracle` gives the outcome of the n-th real PATCH
attempt of the run and `ctr` is the number of attempts made so far. In order:
skip with a warning when the field has no resolved id; otherwise build URL
and payload, log the intended request unconditionally, and unless in dry-run
send the PATCH, log its outcome (info on status < 400, warning on other
statuses, error on a transport exception) and pause. -/
def dispatchField (dry_run : Bool) (api_url tenant : String)
    (ids : List (String × String)) (rowIdx : Nat) (row : Row) (field : String)
    (oracle : Nat → PatchOutcome) (ctr : Nat) : List Event × Nat :=
  match dictLookup ids field with
  | none => ([.logWarning (skipFieldMsg field (rowGet row "use_case_id"))], ctr)
  | some cfId =>
    let use_case_id := rowGet row "use_case_id"
    let url := patchUrl api_url tenant use_case_id
    let payload := mkPayload cfId (rowGet row field)
    let intended := Event.logInfo (intendedMsg rowIdx url)
    if dry_run then ([intended], ctr)
    else
      let resultEvents :=
        match oracle ctr with
        | .resp status text =>
          if status < 400 then [Event.logInfo (patchSuccessMsg rowIdx use_case_id field)]
          else [Event.logWarning (patchFailMsg rowIdx status text)]
        | .exc m => [Event.logError (patchErrMsg rowIdx use_case_id field m)]
      ([intended, .httpPatch url payload] ++ resultEvents ++ [.sleep], ctr + 1)

/-- The inner field loop of patcher.py over the configured field names. -/
def dispatchFields (dry_run : Bool) (api_url tenant : String)
    (ids : List (String × String)) (rowIdx : Nat) (row : Row)
    (fields : List String) (oracle : Nat → PatchOutcome) (ctr : Nat) :
    List Event × Nat :=
  match fields with
  | [] => ([], ctr)
  | f :: rest =>
    let r₁ := dispatchField dry_run api_url tenant ids rowIdx row f oracle ctr
    let r₂ := dispatchFields dry_run api_url tenant ids rowIdx row rest oracle r₁.2
    (r₁.1 ++ r₂.1, r₂.2)

/-- The outer row loop of patcher.py (lines 181-225); `rowIdx` is the 0-based
dataframe index supplied by `iterrows`. -/
def dispatchRows (dry_run : Bool) (api_url tenant : String)
    (ids : List (String × String)) (fields : List String) (rows : List Row)
    (oracle : Nat → PatchOutcome) (rowIdx : Nat) (ctr : Nat) :
    List Event × Nat :=
  match rows with
  | [] => ([], ctr)
  | row :: rest =>
    let r₁ := dispatchFields dry_run api_url tenant ids rowIdx row fields oracle ctr
    let r₂ := dispatchRows dry_run api_url tenant ids fields rest oracle (rowIdx + 1) r₁.2
    (r₁.1 ++ r₂.1, r₂.2)

/-- The dispatch loop of patcher.py (lines 181-225): all events it emits. -/
def patcherDispatch (dry_run : Bool) (api_url tenant : String)
    (ids : List (String × String)) (fields : List String) (rows : List Row)
    (oracle : Nat → PatchOutcome) : List Event :=
  (dispatchRows dry_run api_url tenant ids fields rows oracle 0 0).1

/-- Result of one patcher.py run from the catalog fetch onward: the events of
each stage, the resolved field-id map, and the process exit code. -/
structure RunResult where
  fetchEvents : List Event
  fieldIds : List (String × String)
  csvEvents : List Event
  dispatchEvents : List Event
  exitCode : Nat
deriving DecidableEq, Repr

/-- Full event trace of a run, in emission order. -/
def RunResult.events (r : RunResult) : List Event :=
  r.fetchEvents ++ r.csvEvents ++ r.dispatchEvents

/-- Conversion of the prepared table to per-row association lists keyed by
column name, as `row[...]` accesses them in the loop. -/
def tableToRows (t : Table) : List Row :=
  t.rows.map fun r => t.header.zip r

/-- Embedding of the patcher.py pipeline after config validation and logger
setup (lines 113-226): catalog-fetch block, CSV preparation (exit code 1 on
its fatal error), then the dispatch loop; a run that reaches the end of the
script exits with code 0. -/
def patcherMain (dry_run : Bool) (api_url tenant csv_path : String)
    (custom_field_names : List String) (catalog : CatalogOutcome) (csv : Csv)
    (num_ids : Option Nat) (oracle : Nat → PatchOutcome) : RunResult :=
  let fetched := patcherFetchBlock api_url tenant custom_field_names catalog
  match read_and_prepare_csv csv_path csv custom_field_names num_ids with
  | .error e => ⟨fetched.1, fetched.2, [.logError e], [], 1⟩
  | .ok table =>
    ⟨fetched.1, fetched.2, [.logInfo ("Reading CSV file: " ++ csv_path)],
      patcherDispatch dry_run api_url tenant fetched.2 custom_field_names
        (tableToRows table) oracle, 0⟩

/-- The PATCH events the dispatch loop should emit: one per (row, field) pair
whose field has a resolved id, in row-major order. -/
def expectedPatches (api_url tenant : String) (ids : List (String × String))
    (fields : List String) (rows : List Row) : List Event :=
  rows.flatMap fun row =>
    fields.filterMap fun f =>
      (dictLookup ids f).map fun cfId =>
        Event.httpPatch (patchUrl api_url tenant (rowGet row "use_case_id"))
          (mkPayload cfId (rowGet row f))

/-! ## Helper lemmas -/

/-- Lookup after a dict insert: the inserted key maps to the new value, every
other key is unaffected. -/
theorem dictLookup_dictInsert {α : Type} (d : List (String × α)) (k k' : String)
    (v : α) :
    dictLookup (dictInsert d k v) k' = if k' = k then some v else dictLookup d k' := by
  induction d with
  | nil =>
    by_cases hk' : k' = k
    · subst hk'; simp [dictInsert, dictLookup]
    · have hk : ¬ k = k' := fun h => hk' h.symm
      simp [dictInsert, dictLookup, hk', hk]
  | cons p rest ih =>
    obtain ⟨k₀, v₀⟩ := p
    by_cases h₀ : k₀ = k
    · subst h₀
      by_cases hk' : k' = k₀
      · subst hk'; simp [dictInsert, dictLookup]
      · have h2 : ¬ k₀ = k' := fun h => hk' h.symm
        simp [dictInsert, dictLookup, hk', h2]
    · by_cases hk' : k' = k
      · subst hk'
        simp [dictInsert, dictLookup, h₀, ih]
      · by_cases h₀' : k₀ = k'
        · subst h₀'
          simp [dictInsert, dictLookup, h₀, hk', ih]
        · simp [dictInsert, dictLookup, h₀, hk', h₀', ih]

/-- Folding the catalog dict over one more item is a dict insert. -/
theorem availableFields_append (items : List CatalogItem) (it : CatalogItem) :
    availableFields (items ++ [it]) = dictInsert (availableFields items) it.name it.id := by
  simp [availableFields, List.foldl_append]

/-- Each catalog entry name resolves to the id of one matching item. -/
def sameIdForSameName (items : List CatalogItem) : Prop :=
  ∀ i ∈ items, ∀ j ∈ items, i.name = j.name → i.id = j.id

instance (items : List CatalogItem) : Decidable (sameIdForSameName items) := by
  unfold sameIdForSameName
  infer_instance

/-- When no catalog name carries two different ids, the last-wins dict built
by utils.py looks up to the same id as a first-match scan. -/
theorem lookup_availableFields (items : List CatalogItem)
    (h : sameIdForSameName items) (n : String) :
    dictLookup (availableFields items) n =
      (items.find? (fun it => it.name == n)).map CatalogItem.id := by
  induction items using List.reverseRecOn with
  | nil => rfl
  | append_singleton data it ih =>
    have hdata : sameIdForSameName data := by
      intro i hi j hj hname
      exact h i (by simp [hi]) j (by simp [hj]) hname
    rw [availableFields_append, dictLookup_dictInsert, List.find?_append, ih hdata]
    by_cases hn : n = it.name
    · cases hfind : data.find? (fun x => x.name == n) with
      | none => simp [hn, hfind]
      | some x =>
        have hxmem : x ∈ data := List.mem_of_find?_eq_some hfind
        have hxname : x.name = n := by
          have := List.find?_some hfind
          simpa using this
        have hid : x.id = it.id :=
          h x (by simp [hxmem]) it (by simp) (by rw [hxname, hn])
        simp [hn, hfind, hid]
    · have hne : (it.name == n) = false := by
        simp only [beq_eq_false_iff_ne, ne_eq]
        intro h'; exact hn h'.symm
      simp [hn, hne]

/-- Two folds with pointwise-equal step functions agree. -/
theorem foldl_step_eq {α β : Type} (g₁ g₂ : β → α → β)
    (hg : ∀ b a, g₁ b a = g₂ b a) (l : List α) (b : β) :
    l.foldl g₁ b = l.foldl g₂ b := by
  have : g₁ = g₂ := funext fun b => funext fun a => hg b a
  rw [this]

/-! ## Claim theorems -/

/-- C5: for every configuration in which some required key among csv_path,
base_url, api_token, tenant, custom_field_names is missing or falsy,
`validate_and_expand_config` fails fatally with a message listing exactly the
missing keys by name; the function is pure, so no network or input-file I/O
precedes the failure. -/
theorem missing_config_keys_fatal
    (config : List (String × ConfigValue)) (env : String → Option String)
    (h : ∃ k ∈ REQUIRED_KEYS, truthy (configGet config k) = false) :
    validate_and_expand_config config env =
      .error ("Missing required configuration key(s): " ++
        String.intercalate ", "
          (REQUIRED_KEYS.filter fun k => !truthy (configGet config k)))
    ∧ ∀ k, k ∈ (REQUIRED_KEYS.filter fun k => !truthy (configGet config k)) ↔
        (k ∈ REQUIRED_KEYS ∧ truthy (configGet config k) = false) := by
  constructor
  · have hne : (REQUIRED_KEYS.filter fun k => !truthy (configGet config k)).isEmpty = false := by
      obtain ⟨k, hk, hf⟩ := h
      have hmem : k ∈ REQUIRED_KEYS.filter fun k => !truthy (configGet config k) :=
        List.mem_filter.mpr ⟨hk, by simp [hf]⟩
      rcases hfilter : REQUIRED_KEYS.filter fun k => !truthy (configGet config k) with _ | _
      · rw [hfilter] at hmem; simp at hmem
      · simp
    unfold validate_and_expand_config
    simp [hne]
  · intro k
    rw [List.mem_filter]
    simp

/-- C5 witness: a configuration providing only csv_path is rejected naming the
four other required keys. -/
theorem missing_config_keys_fatal_witness :
    validate_and_expand_config [("csv_path", .vstr "d.csv")] (fun _ => none) =
      .error "Missing required configuration key(s): base_url, api_token, tenant, custom_field_names" := by
  have h := missing_config_keys_fatal [("csv_path", .vstr "d.csv")] (fun _ => none)
    ⟨"base_url", by decide, by decide⟩
  rw [h.1]
  rfl

/-- C6: for a configuration whose api_token value has the literal form of an
environment-variable reference (a dollar sign, an opening brace, the variable
name, a closing brace), `validate_and_expand_config` fails fatally naming the
variable when the environment leaves it unset or empty, and otherwise returns
the literal environment value as the api_token. -/
theorem api_token_env_expansion
    (config : List (String × ConfigValue)) (env : String → Option String)
    (s : String) (xs : List CVAtom) (m : Option Int)
    (hmiss : (REQUIRED_KEYS.filter fun k => !truthy (configGet config k)).isEmpty = true)
    (htok : configGet config "api_token" = .vstr s)
    (hpre : strStarts s "$\x7b" = true) (hsuf : strEnds s "\x7d" = true)
    (hnames : configGet config "custom_field_names" = .vlist xs)
    (hstr : isStringList xs = true)
    (hnum : numIdsCheck (configGet config "num_ids") = .ok m) :
    ((env ((s.drop 2).dropRight 1) = none ∨ env ((s.drop 2).dropRight 1) = some "") →
      validate_and_expand_config config env =
        .error ("Environment variable " ++ (s.drop 2).dropRight 1 ++ " not set."))
    ∧ (∀ v, env ((s.drop 2).dropRight 1) = some v → v ≠ "" →
      validate_and_expand_config config env =
        .ok (configGet config "csv_path", configGet config "base_url",
          .vstr v, configGet config "tenant", asStringList xs, m)) := by
  constructor
  · intro henv
    rcases henv with henv | henv <;>
      simp [validate_and_expand_config, hmiss, htok, hpre, hsuf, hnames, hstr, hnum, henv]
  · intro v henv hv
    simp [validate_and_expand_config, hmiss, htok, hpre, hsuf, hnames, hstr, hnum, henv, hv]

/-- C6 witness: with api_token referencing the variable TOK, a constant
environment mapping every name to the string secret yields that value as the
token, and an empty environment is fatal naming TOK. -/
theorem api_token_env_expansion_witness :
    validate_and_expand_config
      [("csv_path", .vstr "d.csv"), ("base_url", .vstr "B"),
        ("api_token", .vstr "$\x7bTOK\x7d"), ("tenant", .vstr "t"),
        ("custom_field_names", .vlist [.astr "region"])]
      (fun _ => some "secret") =
      .ok (.vstr "d.csv", .vstr "B", .vstr "secret", .vstr "t", ["region"], none)
    ∧ validate_and_expand_config
      [("csv_path", .vstr "d.csv"), ("base_url", .vstr "B"),
        ("api_token", .vstr "$\x7bTOK\x7d"), ("tenant", .vstr "t"),
        ("custom_field_names", .vlist [.astr "region"])]
      (fun _ => none) =
      .error "Environment variable TOK not set." := by
  constructor
  · have h := (api_token_env_expansion
      [("csv_path", .vstr "d.csv"), ("base_url", .vstr "B"),
        ("api_token", .vstr "$\x7bTOK\x7d"), ("tenant", .vstr "t"),
        ("custom_field_names", .vlist [.astr "region"])]
      (fun _ => some "secret") "$\x7bTOK\x7d" [.astr "region"] none
      (by decide) rfl (by decide) (by decide) rfl (by decide) rfl).2 "secret" rfl
      (by decide)
    rw [h]
    rfl
  · have h := (api_token_env_expansion
      [("csv_path", .vstr "d.csv"), ("base_url", .vstr "B"),
        ("api_token", .vstr "$\x7bTOK\x7d"), ("tenant", .vstr "t"),
        ("custom_field_names", .vlist [.astr "region"])]
      (fun _ => none) "$\x7bTOK\x7d" [.astr "region"] none
      (by decide) rfl (by decide) (by decide) rfl (by decide) rfl).1 (Or.inl rfl)
    rw [h]
    rfl

/-- C7: `get_bearer_token` sends one POST to the auth-exchange endpoint with
body of api_token and tenant; it is fatal on a non-success status, fatal on a
success status whose body lacks a non-empty access_token (including a body
whose parsing raises), and otherwise returns the access_token value. -/
theorem bearer_token_exchange (b a t : String) (o : AuthOutcome) :
    (get_bearer_token b a t o).1 = ⟨b ++ "/auth/exchange", a, t⟩
    ∧ (∀ m, o = .exc m → exceptOk (get_bearer_token b a t o).2 = false)
    ∧ (∀ s body, o = .resp s body → 400 ≤ s →
        (get_bearer_token b a t o).2 =
          .error ("Failed to exchange API token for Bearer token (" ++
            Nat.repr s ++ ")"))
    ∧ (∀ s m, o = .resp s (.malformed m) → exceptOk (get_bearer_token b a t o).2 = false)
    ∧ (∀ s, o = .resp s (.parsed none) → s < 400 →
        (get_bearer_token b a t o).2 = .error "Bearer token missing from API response.")
    ∧ (∀ s, o = .resp s (.parsed (some "")) → s < 400 →
        (get_bearer_token b a t o).2 = .error "Bearer token missing from API response.")
    ∧ (∀ s v, o = .resp s (.parsed (some v)) → s < 400 → v ≠ "" →
        (get_bearer_token b a t o).2 = .ok v) := by
  refine ⟨rfl, ?_, ?_, ?_, ?_, ?_, ?_⟩
  · intro m hm; subst hm; rfl
  · intro s body hb hs; subst hb
    have : ¬ s < 400 := by omega
    simp [get_bearer_token, this]
  · intro s m hb; subst hb
    by_cases hs : s < 400 <;> simp [get_bearer_token, exceptOk, hs]
  · intro s hb hs; subst hb
    simp [get_bearer_token, hs]
  · intro s hb hs; subst hb
    simp [get_bearer_token, hs]
  · intro s v hb hs hv; subst hb
    simp [get_bearer_token, hs, hv]

/-- C7 witness: a success response carrying a token returns it, a 500
response is fatal with the status in the message, and a success response with
no access_token field is fatal. -/
theorem bearer_token_exchange_witness :
    (get_bearer_token "B" "a" "t" (.resp 200 (.parsed (some "tok")))).2 = .ok "tok"
    ∧ (get_bearer_token "B" "a" "t" (.resp 500 (.parsed (some "tok")))).2 =
        .error "Failed to exchange API token for Bearer token (500)"
    ∧ (get_bearer_token "B" "a" "t" (.resp 200 (.parsed none))).2 =
        .error "Bearer token missing from API response." := by
  refine ⟨?_, ?_, ?_⟩
  · exact (bearer_token_exchange "B" "a" "t" _).2.2.2.2.2.2 200 "tok" rfl
      (by decide) (by decide)
  · have h := (bearer_token_exchange "B" "a" "t" _).2.2.1 500 (.parsed (some "tok")) rfl
      (by decide)
    rw [h]
    rfl
  · exact (bearer_token_exchange "B" "a" "t" _).2.2.2.2.1 200 rfl (by decide)

/-- C8: the tabular loader renames a column literally named id to use_case_id,
fills missing cells with the empty string, succeeds exactly when every column
in the set of use_case_id plus the configured field names is present (so a
column outside that set is never required), and on failure names exactly the
missing required columns. -/
theorem csv_preparation (csv_path : String) (csv : Csv) (names : List String)
    (num_ids : Option Nat) :
    (exceptOk (read_and_prepare_csv csv_path csv names num_ids) = true ↔
      ∀ c ∈ "use_case_id" :: names, (renameColumns csv.header).contains c = true)
    ∧ (∀ c, c ∈ missingColumns (renameColumns csv.header) names ↔
        (c ∈ "use_case_id" :: names ∧ (renameColumns csv.header).contains c = false))
    ∧ (∀ t, read_and_prepare_csv csv_path csv names num_ids = .ok t →
        t.header = renameColumns csv.header ∧
        t.rows = (match num_ids with
          | some n =>
            if n = 0 then csv.rows.map fun r => r.map fun cell => cell.getD ""
            else (csv.rows.map fun r => r.map fun cell => cell.getD "").take n
          | none => csv.rows.map fun r => r.map fun cell => cell.getD ""))
    ∧ (exceptOk (read_and_prepare_csv csv_path csv names num_ids) = false →
        read_and_prepare_csv csv_path csv names num_ids =
          .error ("Error processing CSV file " ++ csv_path ++
            ": Missing required column(s): " ++
            String.intercalate ", " (missingColumns (renameColumns csv.header) names))) := by
  have hmissingMem : ∀ c, c ∈ missingColumns (renameColumns csv.header) names ↔
      (c ∈ "use_case_id" :: names ∧ (renameColumns csv.header).contains c = false) := by
    intro c
    unfold missingColumns
    rw [List.mem_filter, List.mem_dedup]
    simp
  have hempty : (missingColumns (renameColumns csv.header) names = []) ↔
      ∀ c ∈ "use_case_id" :: names, (renameColumns csv.header).contains c = true := by
    constructor
    · intro hnil c hc
      by_contra hcontains
      have hmem : c ∈ missingColumns (renameColumns csv.header) names :=
        (hmissingMem c).mpr ⟨hc, by simpa using hcontains⟩
      rw [hnil] at hmem
      exact absurd hmem (List.not_mem_nil c)
    · intro hall
      by_contra hne
      obtain ⟨c, hc⟩ := List.exists_mem_of_ne_nil _ hne
      have h1 := (hmissingMem c).mp hc
      rw [hall c h1.1] at h1
      exact absurd h1.2 (by simp)
  refine ⟨?_, hmissingMem, ?_, ?_⟩
  · constructor
    · intro hok
      rw [← hempty]
      by_contra hne
      have hfalse : (missingColumns (renameColumns csv.header) names).isEmpty = false := by
        simpa [List.isEmpty_iff] using hne
      simp only [read_and_prepare_csv] at hok
      rw [hfalse] at hok
      simp [exceptOk] at hok
    · intro hall
      have hnil : missingColumns (renameColumns csv.header) names = [] := hempty.mpr hall
      simp [read_and_prepare_csv, hnil, exceptOk]
  · intro t ht
    by_cases hnil : missingColumns (renameColumns csv.header) names = []
    · rcases num_ids with _ | n
      · have hok : read_and_prepare_csv csv_path csv names none =
            .ok ⟨renameColumns csv.header,
              csv.rows.map fun r => r.map fun cell => cell.getD ""⟩ := by
          simp only [read_and_prepare_csv, hnil, List.isEmpty_nil, if_true]
        rw [hok] at ht
        injection ht with h
        subst h
        exact ⟨rfl, rfl⟩
      · have hok : read_and_prepare_csv csv_path csv names (some n) =
            .ok ⟨renameColumns csv.header,
              if n = 0 then csv.rows.map fun r => r.map fun cell => cell.getD ""
              else (csv.rows.map fun r => r.map fun cell => cell.getD "").take n⟩ := by
          simp only [read_and_prepare_csv, hnil, List.isEmpty_nil, if_true]
        rw [hok] at ht
        injection ht with h
        subst h
        exact ⟨rfl, rfl⟩
    · have hfalse : (missingColumns (renameColumns csv.header) names).isEmpty = false := by
        simpa [List.isEmpty_iff] using hnil
      simp only [read_and_prepare_csv] at ht
      rw [hfalse] at ht
      simp at ht
  · intro hfail
    by_cases hnil : missingColumns (renameColumns csv.header) names = []
    · exact absurd hfail (by simp [read_and_prepare_csv, hnil, exceptOk])
    · have hfalse : (missingColumns (renameColumns csv.header) names).isEmpty = false := by
        simpa [List.isEmpty_iff] using hnil
      simp only [read_and_prepare_csv]
      rw [hfalse]
      simp

/-- C8 witness: the spec example; a CSV with columns id, region, score and
configured fields containing only region loads with the identifier column
renamed and blanks filled, while the same configuration over columns id and
score alone is fatal naming region. -/
theorem csv_preparation_witness :
    read_and_prepare_csv "d.csv"
      ⟨["id", "region", "score"], [[some "u1", none, some "5"]]⟩ ["region"] none =
      .ok ⟨["use_case_id", "region", "score"], [["u1", "", "5"]]⟩
    ∧ read_and_prepare_csv "d.csv" ⟨["id", "score"], []⟩ ["region"] none =
      .error "Error processing CSV file d.csv: Missing required column(s): region" := by
  constructor
  · rfl
  · have h := (csv_preparation "d.csv" ⟨["id", "score"], []⟩ ["region"] none).2.2.2
      (by decide)
    rw [h]
    rfl

/-- C10 counterexample: on a catalog holding two entries named a with ids 1
and 2, the patcher.py loop keeps the first id while the utils.py lookup keeps
the last, so the two mappings differ. -/
theorem field_id_maps_differ_on_duplicates :
    patcherFieldIdMap [⟨"1", "a"⟩, ⟨"2", "a"⟩] ["a"] = [("a", "1")]
    ∧ utilsFieldIdMap [⟨"1", "a"⟩, ⟨"2", "a"⟩] ["a"] = [("a", "2")]
    ∧ patcherFieldIdMap [⟨"1", "a"⟩, ⟨"2", "a"⟩] ["a"] ≠
        utilsFieldIdMap [⟨"1", "a"⟩, ⟨"2", "a"⟩] ["a"] := by
  refine ⟨rfl, rfl, by decide⟩

/-- C10 amended: whenever no catalog name appears with two different ids (in
particular when catalog names are unique), the inline resolution loop of
patcher.py and get_custom_field_ids of utils.py produce the same mapping; on
duplicate names with different ids they differ, patcher.py keeping the first
matching id and utils.py the last. -/
theorem field_id_maps_agree (items : List CatalogItem) (names : List String)
    (h : sameIdForSameName items) :
    patcherFieldIdMap items names = utilsFieldIdMap items names := by
  unfold patcherFieldIdMap utilsFieldIdMap
  refine foldl_step_eq _ _ ?_ names []
  intro acc f
  rw [lookup_availableFields items h f]
  cases items.find? (fun it => it.name == f) <;> rfl

/-- C10 amended witness: on a duplicate-free catalog the two mappings agree. -/
theorem field_id_maps_agree_witness :
    patcherFieldIdMap [⟨"1", "a"⟩, ⟨"2", "b"⟩] ["b", "a"] =
      utilsFieldIdMap [⟨"1", "a"⟩, ⟨"2", "b"⟩] ["b", "a"] :=
  field_id_maps_agree [⟨"1", "a"⟩, ⟨"2", "b"⟩] ["b", "a"] (by decide)

/-! ## Dispatch-loop lemmas -/

/-- The single event a (row, field) pair contributes in dry-run mode. -/
def dryFieldEvent (api_url tenant : String) (ids : List (String × String))
    (rowIdx : Nat) (row : Row) (f : String) : Event :=
  match dictLookup ids f with
  | none => .logWarning (skipFieldMsg f (rowGet row "use_case_id"))
  | some _ => .logInfo (intendedMsg rowIdx (patchUrl api_url tenant (rowGet row "use_case_id")))

/-- A field with no resolved id contributes one warning and no attempt. -/
theorem dispatchField_skip (dr : Bool) (a t : String) (ids : List (String × String))
    (ri : Nat) (row : Row) (f : String) (or : Nat → PatchOutcome) (ctr : Nat)
    (h : dictLookup ids f = none) :
    dispatchField dr a t ids ri row f or ctr =
      ([.logWarning (skipFieldMsg f (rowGet row "use_case_id"))], ctr) := by
  simp [dispatchField, h]

/-- A resolved field in dry-run mode contributes only the intended-request
log line and consumes no attempt. -/
theorem dispatchField_dry_send (a t : String) (ids : List (String × String))
    (ri : Nat) (row : Row) (f : String) (or : Nat → PatchOutcome) (ctr : Nat)
    (cfId : String) (h : dictLookup ids f = some cfId) :
    dispatchField true a t ids ri row f or ctr =
      ([.logInfo (intendedMsg ri (patchUrl a t (rowGet row "use_case_id")))], ctr) := by
  simp [dispatchField, h]

/-- A resolved field in real mode logs the intended request, sends exactly one
PATCH, logs the outcome and pauses, consuming one attempt. -/
theorem dispatchField_real_send (a t : String) (ids : List (String × String))
    (ri : Nat) (row : Row) (f : String) (or : Nat → PatchOutcome) (ctr : Nat)
    (cfId : String) (h : dictLookup ids f = some cfId) :
    dispatchField false a t ids ri row f or ctr =
      ([.logInfo (intendedMsg ri (patchUrl a t (rowGet row "use_case_id"))),
        .httpPatch (patchUrl a t (rowGet row "use_case_id"))
          (mkPayload cfId (rowGet row f))] ++
        (match or ctr with
          | .resp status text =>
            if status < 400 then
              [Event.logInfo (patchSuccessMsg ri (rowGet row "use_case_id") f)]
            else [Event.logWarning (patchFailMsg ri status text)]
          | .exc m =>
            [Event.logError (patchErrMsg ri (rowGet row "use_case_id") f m)]) ++
        [.sleep], ctr + 1) := by
  simp [dispatchField, h]

/-- Dry-run field loop: one event per field, no attempt consumed. -/
theorem dispatchFields_dry (a t : String) (ids : List (String × String))
    (ri : Nat) (row : Row) (or : Nat → PatchOutcome) :
    ∀ (fields : List String) (ctr : Nat),
      dispatchFields true a t ids ri row fields or ctr =
        (fields.map (dryFieldEvent a t ids ri row), ctr) := by
  intro fields
  induction fields with
  | nil => intro ctr; rfl
  | cons f rest ih =>
    intro ctr
    rcases h : dictLookup ids f with _ | cfId
    · simp [dispatchFields, dispatchField_skip _ _ _ _ _ _ _ _ _ h, ih,
        dryFieldEvent, h]
    · simp [dispatchFields, dispatchField_dry_send _ _ _ _ _ _ _ _ _ h, ih,
        dryFieldEvent, h]

/-- The per-field dry-run event is an info log exactly for a resolved field,
and is never a PATCH. -/
theorem dryFieldEvent_kinds (a t : String) (ids : List (String × String))
    (ri : Nat) (row : Row) (f : String) :
    Event.isLogInfoB (dryFieldEvent a t ids ri row f) = (dictLookup ids f).isSome
    ∧ Event.isHttpPatchB (dryFieldEvent a t ids ri row f) = false := by
  unfold dryFieldEvent
  cases dictLookup ids f <;> exact ⟨rfl, rfl⟩

/-- Dry-run row loop: the info-log count is rows times resolvable fields and
no PATCH event occurs. -/
theorem dispatchRows_dry_counts (a t : String) (ids : List (String × String))
    (fields : List String) (or : Nat → PatchOutcome) :
    ∀ (rows : List Row) (ri ctr : Nat),
      ((dispatchRows true a t ids fields rows or ri ctr).1.countP Event.isLogInfoB =
        rows.length * fields.countP (fun f => (dictLookup ids f).isSome))
      ∧ ((dispatchRows true a t ids fields rows or ri ctr).1.countP Event.isHttpPatchB = 0) := by
  intro rows
  induction rows with
  | nil => intro ri ctr; exact ⟨by simp [dispatchRows], rfl⟩
  | cons row rest ih =>
    intro ri ctr
    have hmapInfo : (fields.map (dryFieldEvent a t ids ri row)).countP Event.isLogInfoB =
        fields.countP (fun f => (dictLookup ids f).isSome) := by
      rw [List.countP_map]
      have : (Event.isLogInfoB ∘ dryFieldEvent a t ids ri row) =
          fun f => (dictLookup ids f).isSome :=
        funext fun f => (dryFieldEvent_kinds a t ids ri row f).1
      rw [this]
    have hmapPatch : (fields.map (dryFieldEvent a t ids ri row)).countP Event.isHttpPatchB = 0 := by
      rw [List.countP_map]
      have : (Event.isHttpPatchB ∘ dryFieldEvent a t ids ri row) = fun _ => false :=
        funext fun f => (dryFieldEvent_kinds a t ids ri row f).2
      rw [this]
      simp
    constructor
    · simp only [dispatchRows, dispatchFields_dry, List.countP_append]
      rw [hmapInfo, (ih (ri + 1) ctr).1, List.length_cons]
      ring
    · simp only [dispatchRows, dispatchFields_dry, List.countP_append]
      rw [hmapPatch, (ih (ri + 1) ctr).2]

/-- PATCH events of one (row, field) pair: exactly one when the field
resolves, none otherwise, independently of the outcome. -/
theorem dispatchField_patches (a t : String) (ids : List (String × String))
    (ri : Nat) (row : Row) (f : String) (or : Nat → PatchOutcome) (ctr : Nat) :
    ((dispatchField false a t ids ri row f or ctr).1).filter Event.isHttpPatchB =
      (match dictLookup ids f with
        | some cfId =>
          [Event.httpPatch (patchUrl a t (rowGet row "use_case_id"))
            (mkPayload cfId (rowGet row f))]
        | none => []) := by
  rcases h : dictLookup ids f with _ | cfId
  · rw [dispatchField_skip false a t ids ri row f or ctr h]; rfl
  · rw [dispatchField_real_send a t ids ri row f or ctr cfId h]
    rcases or ctr with m | ⟨s, txt⟩
    · simp [List.filter_append, Event.isHttpPatchB]
    · by_cases hs : s < 400 <;> simp [hs, List.filter_append, Event.isHttpPatchB]

/-- PATCH events of the field loop: one per resolvable field, in order. -/
theorem dispatchFields_patches (a t : String) (ids : List (String × String))
    (ri : Nat) (row : Row) (or : Nat → PatchOutcome) :
    ∀ (fields : List String) (ctr : Nat),
      ((dispatchFields false a t ids ri row fields or ctr).1).filter Event.isHttpPatchB =
        fields.filterMap fun f =>
          (dictLookup ids f).map fun cfId =>
            Event.httpPatch (patchUrl a t (rowGet row "use_case_id"))
              (mkPayload cfId (rowGet row f)) := by
  intro fields
  induction fields with
  | nil => intro ctr; rfl
  | cons f rest ih =>
    intro ctr
    simp only [dispatchFields, List.filter_append]
    rw [dispatchField_patches, ih]
    rcases h : dictLookup ids f with _ | cfId <;> simp [h, List.filterMap_cons]

/-- PATCH events of the whole dispatch loop: exactly the expected row-major
list, independently of the outcomes and of the row index. -/
theorem dispatchRows_patches (a t : String) (ids : List (String × String))
    (fields : List String) (or : Nat → PatchOutcome) :
    ∀ (rows : List Row) (ri ctr : Nat),
      ((dispatchRows false a t ids fields rows or ri ctr).1).filter Event.isHttpPatchB =
        expectedPatches a t ids fields rows := by
  intro rows
  induction rows with
  | nil => intro ri ctr; rfl
  | cons row rest ih =>
    intro ri ctr
    simp only [dispatchRows, List.filter_append]
    rw [dispatchFields_patches, ih]
    simp [expectedPatches]

/-- The exit code of a patcher.py run is decided by the CSV step alone. -/
theorem patcherMain_exitCode (dr : Bool) (a t cp : String) (names : List String)
    (catalog : CatalogOutcome) (csv : Csv) (ni : Option Nat)
    (or : Nat → PatchOutcome) :
    (patcherMain dr a t cp names catalog csv ni or).exitCode =
      if exceptOk (read_and_prepare_csv cp csv names ni) = true then 0 else 1 := by
  rcases h : read_and_prepare_csv cp csv names ni with e | table <;>
    simp [patcherMain, h, exceptOk]

/-- The fetch block always begins by issuing the catalog GET. -/
theorem patcherFetchBlock_first (a t : String) (names : List String)
    (o : CatalogOutcome) :
    (patcherFetchBlock a t names o).1.head? =
      some (Event.httpGet (a ++ "/" ++ t ++ "/custom_fields")) := by
  unfold patcherFetchBlock
  rcases o with m | ⟨s, body⟩
  · rfl
  · by_cases hs : s < 400
    · rcases body with m | items <;> simp [hs]
    · simp [hs]

/-- The fetch block never emits a PATCH request. -/
theorem patcherFetchBlock_no_patch (a t : String) (names : List String)
    (o : CatalogOutcome) :
    (patcherFetchBlock a t names o).1.countP Event.isHttpPatchB = 0 := by
  rw [List.countP_eq_zero]
  intro e he
  unfold patcherFetchBlock at he
  rcases o with m | ⟨s, body⟩
  · simp at he
    rcases he with h | h <;> subst h <;> simp [Event.isHttpPatchB]
  · by_cases hs : s < 400
    · rcases body with m | items
      · simp [hs] at he
        rcases he with h | h <;> subst h <;> simp [Event.isHttpPatchB]
      · simp [hs] at he
        rcases he with h | h | ⟨f, hf, hfe⟩
        · subst h; simp [Event.isHttpPatchB]
        · subst h; simp [Event.isHttpPatchB]
        · rcases hfind : items.find? (fun it => it.name == f) with _ | it <;>
            rw [hfind] at hfe <;> subst hfe <;> simp [Event.isHttpPatchB]
    · simp [hs] at he
      rcases he with h | h <;> subst h <;> simp [Event.isHttpPatchB]

/-- Boolean test for a failed catalog fetch: a transport exception or a
non-success (at least 400) HTTP status. -/
def catalogFailB : CatalogOutcome → Bool
  | .exc _ => true
  | .resp s _ => decide (400 ≤ s)

/-! ## Claim theorems for the fetch and dispatch pipeline -/

/-- C1 counterexample: with the catalog GET returning status 500, the
patcher.py run does not terminate fatally: it continues with an empty field
map and exits with code 0. -/
theorem catalog_fetch_failure_run_continues :
    (patcherMain false "B" "t" "f.csv" ["region"]
      (CatalogOutcome.resp 500 (.parsed []))
      ⟨["id", "region"], [[some "u", some "x"]]⟩ none
      (fun _ => .resp 200 "")).exitCode = 0
    ∧ (patcherMain false "B" "t" "f.csv" ["region"]
      (CatalogOutcome.resp 500 (.parsed []))
      ⟨["id", "region"], [[some "u", some "x"]]⟩ none
      (fun _ => .resp 200 "")).fieldIds = [] := by
  exact ⟨rfl, rfl⟩

/-- C1 amended: on a non-success status or transport exception of the catalog
GET, `get_custom_field_ids` in utils.py terminates fatally, while the inline
fetch block of patcher.py continues with an empty field map (its outer fatal
handler being shadowed by the inner one), and the run still exits 0 whenever
the CSV step succeeds. -/
theorem catalog_fetch_failure_behaviour (bu t : String)
    (headers : List (String × String)) (names : List String)
    (o : CatalogOutcome) (h : catalogFailB o = true) :
    exceptOk (get_custom_field_ids bu t headers names o) = false
    ∧ (∀ api : String, (patcherFetchBlock api t names o).2 = [])
    ∧ (∀ (api cp : String) (csv : Csv) (ni : Option Nat)
        (or : Nat → PatchOutcome) (dr : Bool),
        exceptOk (read_and_prepare_csv cp csv names ni) = true →
        (patcherMain dr api t cp names o csv ni or).exitCode = 0) := by
  refine ⟨?_, ?_, ?_⟩
  · rcases o with m | ⟨s, body⟩
    · rfl
    · have hs : ¬ s < 400 := by
        simp [catalogFailB] at h
        omega
      simp [get_custom_field_ids, hs, exceptOk]
  · intro api
    rcases o with m | ⟨s, body⟩
    · rfl
    · have hs : ¬ s < 400 := by
        simp [catalogFailB] at h
        omega
      simp [patcherFetchBlock, hs]
  · intro api cp csv ni or dr hcsv
    rw [patcherMain_exitCode, hcsv]
    rfl

/-- C1 amended witness: a 503 catalog response is fatal for utils.py, leaves
patcher.py with an empty map, and a run with a loadable CSV exits 0. -/
theorem catalog_fetch_failure_behaviour_witness :
    exceptOk (get_custom_field_ids "B" "t" []
      ["region"] (.resp 503 (.parsed [⟨"42", "region"⟩]))) = false
    ∧ (patcherFetchBlock "B" "t" ["region"]
        (.resp 503 (.parsed [⟨"42", "region"⟩]))).2 = []
    ∧ (patcherMain true "B" "t" "f.csv" ["region"]
        (.resp 503 (.parsed [⟨"42", "region"⟩]))
        ⟨["id", "region"], [[some "u", none]]⟩ none
        (fun _ => .resp 200 "")).exitCode = 0 := by
  have h := catalog_fetch_failure_behaviour "B" "t" [] ["region"]
    (.resp 503 (.parsed [⟨"42", "region"⟩])) (by decide)
  exact ⟨h.1, h.2.1 "B", h.2.2 "B" "f.csv" _ none _ true (by decide)⟩

/-- C2 counterexample: in a dry run the catalog GET is issued all the same and
the field map is built from the response, not as an identity mapping. -/
theorem dry_run_catalog_get_issued :
    (Event.httpGet "B/t/custom_fields") ∈
      (patcherMain true "B" "t" "f.csv" ["region"]
        (CatalogOutcome.resp 200 (.parsed [⟨"42", "region"⟩]))
        ⟨["id", "region"], [[some "u", some "x"]]⟩ none
        (fun _ => .resp 200 "")).events
    ∧ (patcherMain true "B" "t" "f.csv" ["region"]
        (CatalogOutcome.resp 200 (.parsed [⟨"42", "region"⟩]))
        ⟨["id", "region"], [[some "u", some "x"]]⟩ none
        (fun _ => .resp 200 "")).fieldIds = [("region", "42")]
    ∧ (patcherMain true "B" "t" "f.csv" ["region"]
        (CatalogOutcome.resp 200 (.parsed [⟨"42", "region"⟩]))
        ⟨["id", "region"], [[some "u", some "x"]]⟩ none
        (fun _ => .resp 200 "")).fieldIds ≠ [("region", "region")] := by
  refine ⟨by decide, rfl, by decide⟩

/-- C2 amended: dry-run mode does not bypass the catalog GET: the run issues
it first among the fetch events, and both the fetch events and the resolved
field-id map are identical to those of a non-dry run on the same inputs; no
identity mapping is constructed. -/
theorem dry_run_fetch_unchanged (a t cp : String) (names : List String)
    (catalog : CatalogOutcome) (csv : Csv) (ni : Option Nat)
    (or : Nat → PatchOutcome) :
    (patcherMain true a t cp names catalog csv ni or).fetchEvents.head? =
      some (Event.httpGet (a ++ "/" ++ t ++ "/custom_fields"))
    ∧ (patcherMain true a t cp names catalog csv ni or).fetchEvents =
        (patcherMain false a t cp names catalog csv ni or).fetchEvents
    ∧ (patcherMain true a t cp names catalog csv ni or).fieldIds =
        (patcherMain false a t cp names catalog csv ni or).fieldIds := by
  have hfetch : ∀ dr : Bool,
      (patcherMain dr a t cp names catalog csv ni or).fetchEvents =
        (patcherFetchBlock a t names catalog).1
      ∧ (patcherMain dr a t cp names catalog csv ni or).fieldIds =
        (patcherFetchBlock a t names catalog).2 := by
    intro dr
    rcases h : read_and_prepare_csv cp csv names ni with e | table <;>
      simp [patcherMain, h]
  refine ⟨?_, ?_, ?_⟩
  · rw [(hfetch true).1]
    exact patcherFetchBlock_first a t names catalog
  · rw [(hfetch true).1, (hfetch false).1]
  · rw [(hfetch true).2, (hfetch false).2]

/-- C3 counterexample: the dispatch loop addresses the PATCH to
{api_url}/{tenant}/use_cases/{use_case_id}/custom_fields, with no /api/v2
segment inserted between the configured URL and the tenant. -/
theorem patch_url_counterexample :
    (dispatchField false "B" "t" [("region", "42")] 0
        [("use_case_id", "u"), ("region", "x")] "region"
        (fun _ => .resp 200 "") 0).1 =
      [.logInfo (intendedMsg 0 "B/t/use_cases/u/custom_fields"),
       .httpPatch "B/t/use_cases/u/custom_fields" (mkPayload "42" "x"),
       .logInfo (patchSuccessMsg 0 "u" "region"), .sleep]
    ∧ "B/t/use_cases/u/custom_fields" ≠ "B/api/v2/t/use_cases/u/custom_fields" := by
  exact ⟨rfl, by decide⟩

/-- C3 amended: for every (row, field) pair with a resolved id, the loop logs
the intended request and sends one PATCH to
{api_url}/{tenant}/use_cases/{use_case_id}/custom_fields (the configured
api_url is used as-is, without inserting /api/v2), with payload
data.type use_case_custom_fields and attributes carrying the resolved
custom_field_id and the row's string value for the field. -/
theorem patch_request_construction (a t : String) (ids : List (String × String))
    (ri : Nat) (row : Row) (f : String) (or : Nat → PatchOutcome) (ctr : Nat)
    (cfId : String) (h : dictLookup ids f = some cfId) :
    (∃ tail, (dispatchField false a t ids ri row f or ctr).1 =
      Event.logInfo (intendedMsg ri (patchUrl a t (rowGet row "use_case_id"))) ::
      Event.httpPatch (patchUrl a t (rowGet row "use_case_id"))
        (mkPayload cfId (rowGet row f)) :: tail)
    ∧ patchUrl a t (rowGet row "use_case_id") =
        a ++ "/" ++ t ++ "/use_cases/" ++ rowGet row "use_case_id" ++ "/custom_fields"
    ∧ mkPayload cfId (rowGet row f) =
        ⟨⟨"use_case_custom_fields", ⟨cfId, rowGet row f⟩⟩⟩ := by
  refine ⟨⟨(match or ctr with
    | .resp status text =>
      if status < 400 then [Event.logInfo (patchSuccessMsg ri (rowGet row "use_case_id") f)]
      else [Event.logWarning (patchFailMsg ri status text)]
    | .exc m => [Event.logError (patchErrMsg ri (rowGet row "use_case_id") f m)]) ++
      [Event.sleep], ?_⟩, rfl, rfl⟩
  rw [dispatchField_real_send a t ids ri row f or ctr cfId h]
  rfl

/-- C3 amended witness: a concrete resolved pair produces the intended log
followed by the PATCH with the constructed URL and payload. -/
theorem patch_request_construction_witness :
    ∃ tail, (dispatchField false "B" "t" [("region", "42")] 0
        [("use_case_id", "u"), ("region", "x")] "region"
        (fun _ => .resp 200 "") 0).1 =
      Event.logInfo (intendedMsg 0 (patchUrl "B" "t" "u")) ::
      Event.httpPatch (patchUrl "B" "t" "u") (mkPayload "42" "x") :: tail :=
  (patch_request_construction "B" "t" [("region", "42")] 0
    [("use_case_id", "u"), ("region", "x")] "region"
    (fun _ => .resp 200 "") 0 "42" rfl).1

/-- C4: in dry-run mode the dispatch loop emits no PATCH event and exactly
one intended-request info log per (row, field) pair whose field resolves; at
run level a dry run issues no PATCH at all, its dispatch log count is the row
count times the resolvable-field count, and the process exits 0 whenever the
CSV loads. -/
theorem dry_run_dispatch_behaviour (a t : String) (ids : List (String × String))
    (fields : List String) (rows : List Row) (or : Nat → PatchOutcome) :
    (patcherDispatch true a t ids fields rows or).countP Event.isHttpPatchB = 0
    ∧ (patcherDispatch true a t ids fields rows or).countP Event.isLogInfoB =
        rows.length * fields.countP (fun f => (dictLookup ids f).isSome)
    ∧ (∀ (cp : String) (catalog : CatalogOutcome) (csv : Csv) (ni : Option Nat)
        (or₂ : Nat → PatchOutcome),
        (patcherMain true a t cp fields catalog csv ni or₂).events.countP
          Event.isHttpPatchB = 0)
    ∧ (∀ (cp : String) (catalog : CatalogOutcome) (csv : Csv) (ni : Option Nat)
        (or₂ : Nat → PatchOutcome) (table : Table),
        read_and_prepare_csv cp csv fields ni = .ok table →
        (patcherMain true a t cp fields catalog csv ni or₂).dispatchEvents.countP
            Event.isLogInfoB =
          table.rows.length *
            fields.countP (fun f =>
              (dictLookup (patcherFetchBlock a t fields catalog).2 f).isSome))
    ∧ (∀ (cp : String) (catalog : CatalogOutcome) (csv : Csv) (ni : Option Nat)
        (or₂ : Nat → PatchOutcome),
        exceptOk (read_and_prepare_csv cp csv fields ni) = true →
        (patcherMain true a t cp fields catalog csv ni or₂).exitCode = 0) := by
  refine ⟨?_, ?_, ?_, ?_, ?_⟩
  · exact (dispatchRows_dry_counts a t ids fields or rows 0 0).2
  · exact (dispatchRows_dry_counts a t ids fields or rows 0 0).1
  · intro cp catalog csv ni or₂
    rcases h : read_and_prepare_csv cp csv fields ni with e | table
    · simp [patcherMain, h, RunResult.events, List.countP_append,
        patcherFetchBlock_no_patch, Event.isHttpPatchB]
    · simp [patcherMain, h, RunResult.events, List.countP_append,
        patcherFetchBlock_no_patch, Event.isHttpPatchB, patcherDispatch,
        (dispatchRows_dry_counts a t (patcherFetchBlock a t fields catalog).2
          fields or₂ (tableToRows table) 0 0).2]
  · intro cp catalog csv ni or₂ table h
    simp only [patcherMain, h]
    rw [patcherDispatch,
      (dispatchRows_dry_counts a t (patcherFetchBlock a t fields catalog).2
        fields or₂ (tableToRows table) 0 0).1]
    simp [tableToRows]
  · intro cp catalog csv ni or₂ hcsv
    rw [patcherMain_exitCode, hcsv]
    rfl

/-- C4 witness: a concrete dry run issues no PATCH, logs one intended request
for its single resolvable (row, field) pair, and exits 0. -/
theorem dry_run_dispatch_behaviour_witness :
    (patcherMain true "B" "t" "f.csv" ["region"]
      (CatalogOutcome.resp 200 (.parsed [⟨"42", "region"⟩]))
      ⟨["id", "region"], [[some "u", some "x"]]⟩ none
      (fun _ => .resp 200 "")).events.countP Event.isHttpPatchB = 0
    ∧ (patcherMain true "B" "t" "f.csv" ["region"]
      (CatalogOutcome.resp 200 (.parsed [⟨"42", "region"⟩]))
      ⟨["id", "region"], [[some "u", some "x"]]⟩ none
      (fun _ => .resp 200 "")).dispatchEvents.countP Event.isLogInfoB = 1
    ∧ (patcherMain true "B" "t" "f.csv" ["region"]
      (CatalogOutcome.resp 200 (.parsed [⟨"42", "region"⟩]))
      ⟨["id", "region"], [[some "u", some "x"]]⟩ none
      (fun _ => .resp 200 "")).exitCode = 0 := by
  have h := dry_run_dispatch_behaviour "B" "t" [] ["region"] [] (fun _ => .resp 200 "")
  refine ⟨h.2.2.1 "f.csv" _ _ none _, ?_, h.2.2.2.2 "f.csv" _ _ none _ (by decide)⟩
  have h4 := h.2.2.2.1 "f.csv" (CatalogOutcome.resp 200 (.parsed [⟨"42", "region"⟩]))
    ⟨["id", "region"], [[some "u", some "x"]]⟩ none (fun _ => .resp 200 "")
    ⟨["use_case_id", "region"], [["u", "x"]]⟩ rfl
  rw [h4]
  decide

/-- C9: in real mode the dispatch loop attempts exactly one PATCH per
resolvable (row, field) pair, in row-major order, whatever the outcomes (so a
failure is never fatal, never retried, and never prevents later pairs); a
failing status is logged as a warning and a transport exception as an error,
after which the loop moves on; and the run exit code does not depend on the
PATCH outcomes. -/
theorem patch_failures_logged_not_fatal (a t : String)
    (ids : List (String × String)) (fields : List String) (rows : List Row)
    (or : Nat → PatchOutcome) :
    (patcherDispatch false a t ids fields rows or).filter Event.isHttpPatchB =
        expectedPatches a t ids fields rows
    ∧ (∀ or₂ : Nat → PatchOutcome,
        (patcherDispatch false a t ids fields rows or₂).filter Event.isHttpPatchB =
          (patcherDispatch false a t ids fields rows or).filter Event.isHttpPatchB)
    ∧ (∀ (ri : Nat) (row : Row) (f : String) (ctr : Nat) (cfId : String)
        (status : Nat) (text : String),
        dictLookup ids f = some cfId → or ctr = .resp status text → 400 ≤ status →
        (dispatchField false a t ids ri row f or ctr).1 =
          [.logInfo (intendedMsg ri (patchUrl a t (rowGet row "use_case_id"))),
           .httpPatch (patchUrl a t (rowGet row "use_case_id"))
             (mkPayload cfId (rowGet row f)),
           .logWarning (patchFailMsg ri status text), .sleep])
    ∧ (∀ (ri : Nat) (row : Row) (f : String) (ctr : Nat) (cfId m : String),
        dictLookup ids f = some cfId → or ctr = .exc m →
        (dispatchField false a t ids ri row f or ctr).1 =
          [.logInfo (intendedMsg ri (patchUrl a t (rowGet row "use_case_id"))),
           .httpPatch (patchUrl a t (rowGet row "use_case_id"))
             (mkPayload cfId (rowGet row f)),
           .logError (patchErrMsg ri (rowGet row "use_case_id") f m), .sleep])
    ∧ (∀ (cp : String) (catalog : CatalogOutcome) (csv : Csv) (ni : Option Nat)
        (or₂ : Nat → PatchOutcome),
        (patcherMain false a t cp fields catalog csv ni or).exitCode =
          (patcherMain false a t cp fields catalog csv ni or₂).exitCode) := by
  refine ⟨?_, ?_, ?_, ?_, ?_⟩
  · exact dispatchRows_patches a t ids fields or rows 0 0
  · intro or₂
    exact (dispatchRows_patches a t ids fields or₂ rows 0 0).trans
      (dispatchRows_patches a t ids fields or rows 0 0).symm
  · intro ri row f ctr cfId status text h hresp hs
    rw [dispatchField_real_send a t ids ri row f or ctr cfId h, hresp]
    have hlt : ¬ status < 400 := by omega
    simp [hlt]
  · intro ri row f ctr cfId m h hexc
    rw [dispatchField_real_send a t ids ri row f or ctr cfId h, hexc]
    rfl
  · intro cp catalog csv ni or₂
    rw [patcherMain_exitCode, patcherMain_exitCode]

/-- C9 witness: a PATCH answered with status 500 yields the intended log, one
PATCH event, a warning and the pause, exactly as for any other outcome. -/
theorem patch_failures_logged_not_fatal_witness :
    (dispatchField false "B" "t" [("region", "42")] 0
        [("use_case_id", "u"), ("region", "x")] "region"
        (fun _ => .resp 500 "boom") 0).1 =
      [.logInfo (intendedMsg 0 (patchUrl "B" "t" "u")),
       .httpPatch (patchUrl "B" "t" "u") (mkPayload "42" "x"),
       .logWarning (patchFailMsg 0 500 "boom"), .sleep] := by
  exact (patch_failures_logged_not_fatal "B" "t" [("region", "42")] ["region"] []
    (fun _ => .resp 500 "boom")).2.2.1 0 [("use_case_id", "u"), ("region", "x")]
    "region" 0 "42" 500 "boom" rfl rfl (by decide)

end CustomFieldPatcher
